import Mathlib

/-!
Shallow embedding of the calendar/era/zodiac enumeration core of the
lifetools repository (`generate_years_v14_streamlit.py`, `generate_years_v9.py`
and the other generator variants, which share the same logic verbatim).

Python integers become `Int` (Python `%` with a positive divisor agrees with
`Int.emod`), Python strings become `String`, dictionary lookups with a
`.get(..., default)` or a total key set become total `String`-valued functions.
-/

/-- The canonical ordered 12-month list (`months` in the source). -/
def months : List String :=
  ["January", "February", "March", "April", "May", "June",
   "July", "August", "September", "October", "November", "December"]

/-- The `month_num` dictionary inside `get_japanese_era`.  In Python a missing
key raises; the claims only use canonical month names, and we default to 0. -/
def month_num (month : String) : Nat :=
  match month with
  | "January" => 1
  | "February" => 2
  | "March" => 3
  | "April" => 4
  | "May" => 5
  | "June" => 6
  | "July" => 7
  | "August" => 8
  | "September" => 9
  | "October" => 10
  | "November" => 11
  | "December" => 12
  | _ => 0

/-- `get_japanese_era(year, month)` from the source: the chain of range checks
over the five modern Japanese eras, with Python f-strings rendered as string
append of `toString`. -/
def get_japanese_era (year : Int) (month : String) : String :=
  let m := month_num month
  if year < 1868 then "Pre-Meiji"
  else if year = 1868 then
    if m < 9 then "Pre-Meiji" else "Meiji 1"
  else if year ≤ 1911 then "Meiji " ++ toString (year - 1867)
  else if year = 1912 then
    if m ≤ 7 then "Meiji " ++ toString (year - 1867) else "Taisho 1"
  else if year ≤ 1925 then "Taisho " ++ toString (year - 1911)
  else if year = 1926 then
    if m ≤ 12 then "Taisho " ++ toString (year - 1911) else "Showa 1"
  else if year ≤ 1988 then "Showa " ++ toString (year - 1925)
  else if year = 1989 then
    if m ≤ 1 then "Showa " ++ toString (year - 1925) else "Heisei 1"
  else if year ≤ 2018 then "Heisei " ++ toString (year - 1988)
  else if year = 2019 then
    if m ≤ 4 then "Heisei " ++ toString (year - 1988) else "Reiwa 1"
  else "Reiwa " ++ toString (year - 2018)

/-- The `zodiac_animals` list from `get_chinese_zodiac`. -/
def zodiac_animals : List String :=
  ["Rat", "Ox", "Tiger", "Rabbit", "Dragon", "Snake",
   "Horse", "Goat", "Monkey", "Rooster", "Dog", "Wild Boar"]

/-- `get_chinese_zodiac(year, month)` from the source.  The `month` argument is
accepted and ignored, exactly as in the Python code.  `(year - 1900) % 12` is
nonnegative in Python for the positive divisor 12, matching `Int.emod`. -/
def get_chinese_zodiac (year : Int) (month : String) : String :=
  let zodiac_index := ((year - 1900) % 12).toNat
  let zodiac_animal := zodiac_animals.getD zodiac_index ""
  let zodiac_year := zodiac_index + 1
  zodiac_animal ++ " Year " ++ toString zodiac_year

/-- `get_western_zodiac(month)` from the source: a fixed dictionary lookup with
default `"Unknown"` (`western_zodiac.get(month, 'Unknown')`). -/
def get_western_zodiac (month : String) : String :=
  match month with
  | "January" => "Capricorn/Aquarius"
  | "February" => "Aquarius/Pisces"
  | "March" => "Pisces/Aries"
  | "April" => "Aries/Taurus"
  | "May" => "Taurus/Gemini"
  | "June" => "Gemini/Cancer"
  | "July" => "Cancer/Leo"
  | "August" => "Leo/Virgo"
  | "September" => "Virgo/Libra"
  | "October" => "Libra/Scorpio"
  | "November" => "Scorpio/Sagittarius"
  | "December" => "Sagittarius/Capricorn"
  | _ => "Unknown"

/-- The `season_map` dictionary from `generate_data`.  All canonical months are
keys; a missing key (impossible on the loop's inputs) defaults to `""`. -/
def season_map (month : String) : String :=
  match month with
  | "January" => "winter"
  | "February" => "winter"
  | "March" => "spring"
  | "April" => "spring"
  | "May" => "spring"
  | "June" => "summer"
  | "July" => "summer"
  | "August" => "summer"
  | "September" => "autumn"
  | "October" => "autumn"
  | "November" => "autumn"
  | "December" => "winter"
  | _ => ""

/-- One emitted data row (`[current_year, age, season, month, japanese_era,
chinese_zodiac, western_zodiac]` in the source). -/
structure Row where
  year : Int
  age : Nat
  season : String
  month : String
  japanese_era : String
  chinese_zodiac : String
  western_zodiac : String
deriving DecidableEq, Repr

/-- The body of the source's `while month_count < total_months` loop, as a
recursion on the number of remaining iterations.  State `current_year` and
`month_count` are threaded exactly as the Python mutable variables are. -/
def genLoop (rotated_months : List String) :
    Int → Nat → Nat → List Row
  | _, _, 0 => []
  | current_year, month_count, n + 1 =>
    let age := month_count / 12
    let month_index := month_count % 12
    let month := rotated_months.getD month_index ""
    let season := season_map month
    let row : Row :=
      ⟨current_year, age, season, month, get_japanese_era current_year month,
        get_chinese_zodiac current_year month, get_western_zodiac month⟩
    row :: genLoop rotated_months
      (if month = "December" then current_year + 1 else current_year)
      (month_count + 1) n

/-- The data rows produced by `generate_data(name, birth_year, birth_month)`
(v14) / the loop of `main` (v9): the header row the source prepends is a
presentation concern and is not a `Row`.  `months.index(birth_month)` is
embedded as `List.indexOf`, and `months[i:] + months[:i]` as `drop ++ take`. -/
def generate (birth_year : Int) (birth_month : String) : List Row :=
  let end_year := birth_year + 100
  let birth_month_index := months.indexOf birth_month
  let rotated_months :=
    months.drop birth_month_index ++ months.take birth_month_index
  let total_months := ((end_year - birth_year + 1) * 12).toNat
  genLoop rotated_months birth_year 0 total_months

/-- The successor relation between consecutive emitted rows: the year is bumped
exactly when the earlier row's month is December (`if month == 'December':
current_year += 1` in the source). -/
def yearStep (r₁ r₂ : Row) : Prop :=
  r₂.year = if r₁.month = "December" then r₁.year + 1 else r₁.year

lemma genLoop_length (rotated : List String) :
    ∀ (n : Nat) (y : Int) (mc : Nat), (genLoop rotated y mc n).length = n := by
  intro n
  induction n with
  | zero => intro y mc; rfl
  | succ k ih => intro y mc; simp only [genLoop, List.length_cons, ih]

lemma total_months_toNat (Y : Int) : ((Y + 100 - Y + 1) * 12).toNat = 1212 := by
  omega

lemma genLoop_chain (rotated : List String) :
    ∀ (n : Nat) (y : Int) (mc : Nat),
      List.Chain' yearStep (genLoop rotated y mc n) := by
  intro n
  induction n with
  | zero => intro y mc; exact List.chain'_nil
  | succ k ih =>
    intro y mc
    rw [genLoop]
    refine List.chain'_cons'.mpr ⟨?_, ih _ _⟩
    intro r₂ hr₂
    cases k with
    | zero => simp [genLoop] at hr₂
    | succ j =>
      rw [genLoop] at hr₂
      simp only [Option.mem_def, List.head?_cons, Option.some.injEq] at hr₂
      subst hr₂
      rfl

lemma genLoop_year_shift (rotated : List String) :
    ∀ (n : Nat) (y d : Int) (mc : Nat),
      (genLoop rotated (y + d) mc n).map Row.year
        = ((genLoop rotated y mc n).map Row.year).map (fun z => z + d) := by
  intro n
  induction n with
  | zero => intro y d mc; rfl
  | succ k ih =>
    intro y d mc
    rw [genLoop, genLoop]
    simp only [List.map_cons, List.cons.injEq]
    refine ⟨trivial, ?_⟩
    by_cases hP : rotated.getD (mc % 12) "" = "December"
    · simp only [hP, if_pos rfl, if_true]
      have h1 : y + d + 1 = (y + 1) + d := by ring
      rw [h1, ih (y + 1) d (mc + 1)]
    · simp only [if_neg hP]
      exact ih y d (mc + 1)

lemma genLoop_head (rotated : List String) (n : Nat) (y : Int) (mc : Nat)
    (hn : 0 < n) : ((genLoop rotated y mc n).head?).map Row.year = some y := by
  cases n with
  | zero => omega
  | succ k => rw [genLoop]; rfl

/-- The character class of the sanitizer's regex `[a-zA-Z0-9_-]`. -/
def is_allowed_char (c : Char) : Bool :=
  ('a' ≤ c && c ≤ 'z') || ('A' ≤ c && c ≤ 'Z') || ('0' ≤ c && c ≤ '9')
    || c = '_' || c = '-'

/-- `re.sub(r'[^a-zA-Z0-9_-]', '_', name)` as the scan it performs: the
single-character class matches each character outside the class, each match is
replaced by `'_'`, characters inside the class are copied unchanged. -/
def subNonAllowed : List Char → List Char
  | [] => []
  | c :: cs => (if is_allowed_char c then c else '_') :: subNonAllowed cs

/-- `sanitized_name = re.sub(r'[^a-zA-Z0-9_-]', '_', name).lower()` from the
source.  After the substitution every character is ASCII, so Python's
`.lower()` agrees with `String.toLower` (per-character ASCII lower-casing). -/
def sanitized_name (name : String) : String :=
  (String.mk (subNonAllowed name.data)).toLower

/-- Modelled from the spec ONLY for comparison with `sanitized_name` (claim
C9): "replacing every character outside `[A-Za-z0-9_-]` with `_` and
lower-casing". -/
def sanitize_spec (s : String) : String :=
  (s.map (fun c => if is_allowed_char c then c else '_')).toLower

lemma subNonAllowed_eq_map (l : List Char) :
    subNonAllowed l = l.map (fun c => if is_allowed_char c then c else '_') := by
  induction l with
  | nil => rfl
  | cons c cs ih => simp only [subNonAllowed, List.map_cons, ih]

/-- Every string's `month_num` value is at most 12 (the dictionary's values are
1..12 and the embedding's default for a missing key is 0). -/
lemma month_num_le_twelve (m : String) : month_num m ≤ 12 := by
  unfold month_num
  split <;> omega

/-- A string starting with a character other than `'S'` is not `"Showa 1"`. -/
lemma append_ne_showa_one (a s : String) (c : Char)
    (ha : a.data.head? = some c) (hc : c ≠ 'S') : a ++ s ≠ "Showa 1" := by
  intro e
  have h2 : (a ++ s).data.head? = some c := by
    rw [String.data_append]
    cases hl : a.data with
    | nil => rw [hl] at ha; cases ha
    | cons x xs =>
      rw [hl] at ha
      simp only [List.head?_cons, Option.some.injEq] at ha
      simp [ha]
  rw [e] at h2
  have : ('S' : Char) = c := by
    have h3 : ("Showa 1".data.head?) = some 'S' := rfl
    rw [h3] at h2
    exact Option.some.inj h2
  exact hc this.symm

section EraRegions

/- Evaluation of `get_japanese_era` on each of its branches, obtained by
discharging the chain of range checks one by one. -/

lemma era_pre (y : Int) (m : String) (h : y < 1868) :
    get_japanese_era y m = "Pre-Meiji" := by
  simp only [get_japanese_era]
  rw [if_pos h]

lemma era_1868 (m : String) :
    get_japanese_era 1868 m
      = if month_num m < 9 then "Pre-Meiji" else "Meiji 1" := by
  norm_num [get_japanese_era]

lemma era_meiji (y : Int) (m : String) (h1 : 1868 < y) (h2 : y ≤ 1911) :
    get_japanese_era y m = "Meiji " ++ toString (y - 1867) := by
  have n1 : ¬(y < 1868) := by omega
  have n2 : y ≠ 1868 := by omega
  simp only [get_japanese_era]
  rw [if_neg n1, if_neg n2, if_pos h2]

lemma era_1912 (m : String) :
    get_japanese_era 1912 m
      = if month_num m ≤ 7 then "Meiji " ++ toString (1912 - 1867 : Int)
        else "Taisho 1" := by
  norm_num [get_japanese_era]

lemma era_taisho (y : Int) (m : String) (h1 : 1912 < y) (h2 : y ≤ 1925) :
    get_japanese_era y m = "Taisho " ++ toString (y - 1911) := by
  have n1 : ¬(y < 1868) := by omega
  have n2 : y ≠ 1868 := by omega
  have n3 : ¬(y ≤ 1911) := by omega
  have n4 : y ≠ 1912 := by omega
  simp only [get_japanese_era]
  rw [if_neg n1, if_neg n2, if_neg n3, if_neg n4, if_pos h2]

lemma era_1926 (m : String) :
    get_japanese_era 1926 m
      = if month_num m ≤ 12 then "Taisho " ++ toString (1926 - 1911 : Int)
        else "Showa 1" := by
  norm_num [get_japanese_era]

lemma era_showa (y : Int) (m : String) (h1 : 1926 < y) (h2 : y ≤ 1988) :
    get_japanese_era y m = "Showa " ++ toString (y - 1925) := by
  have n1 : ¬(y < 1868) := by omega
  have n2 : y ≠ 1868 := by omega
  have n3 : ¬(y ≤ 1911) := by omega
  have n4 : y ≠ 1912 := by omega
  have n5 : ¬(y ≤ 1925) := by omega
  have n6 : y ≠ 1926 := by omega
  simp only [get_japanese_era]
  rw [if_neg n1, if_neg n2, if_neg n3, if_neg n4, if_neg n5, if_neg n6,
    if_pos h2]

lemma era_1989 (m : String) :
    get_japanese_era 1989 m
      = if month_num m ≤ 1 then "Showa " ++ toString (1989 - 1925 : Int)
        else "Heisei 1" := by
  norm_num [get_japanese_era]

lemma era_heisei (y : Int) (m : String) (h1 : 1989 < y) (h2 : y ≤ 2018) :
    get_japanese_era y m = "Heisei " ++ toString (y - 1988) := by
  have n1 : ¬(y < 1868) := by omega
  have n2 : y ≠ 1868 := by omega
  have n3 : ¬(y ≤ 1911) := by omega
  have n4 : y ≠ 1912 := by omega
  have n5 : ¬(y ≤ 1925) := by omega
  have n6 : y ≠ 1926 := by omega
  have n7 : ¬(y ≤ 1988) := by omega
  have n8 : y ≠ 1989 := by omega
  simp only [get_japanese_era]
  rw [if_neg n1, if_neg n2, if_neg n3, if_neg n4, if_neg n5, if_neg n6,
    if_neg n7, if_neg n8, if_pos h2]

lemma era_2019 (m : String) :
    get_japanese_era 2019 m
      = if month_num m ≤ 4 then "Heisei " ++ toString (2019 - 1988 : Int)
        else "Reiwa 1" := by
  norm_num [get_japanese_era]

lemma era_reiwa (y : Int) (m : String) (h : 2019 < y) :
    get_japanese_era y m = "Reiwa " ++ toString (y - 2018) := by
  have n1 : ¬(y < 1868) := by omega
  have n2 : y ≠ 1868 := by omega
  have n3 : ¬(y ≤ 1911) := by omega
  have n4 : y ≠ 1912 := by omega
  have n5 : ¬(y ≤ 1925) := by omega
  have n6 : y ≠ 1926 := by omega
  have n7 : ¬(y ≤ 1988) := by omega
  have n8 : y ≠ 1989 := by omega
  have n9 : ¬(y ≤ 2018) := by omega
  have n10 : y ≠ 2019 := by omega
  simp only [get_japanese_era]
  rw [if_neg n1, if_neg n2, if_neg n3, if_neg n4, if_neg n5, if_neg n6,
    if_neg n7, if_neg n8, if_neg n9, if_neg n10]

end EraRegions

/-- C6: every month of 1926 is labelled `"Taisho 15"`, and the era lookup never
returns the transition value `"Showa 1"` for any integer year and canonical
month: the `month > 12` guard of the 1926 branch is unreachable, and every
other Showa label has reign year at least 2. -/
theorem c6_showa_one_unreachable :
    (∀ m ∈ months, get_japanese_era 1926 m = "Taisho 15")
    ∧ ∀ (y : Int), ∀ m ∈ months, get_japanese_era y m ≠ "Showa 1" := by
  constructor
  · decide
  intro y m _hm
  by_cases hy1 : y < 1868
  · rw [era_pre y m hy1]; decide
  by_cases hy2 : y = 1868
  · subst hy2; rw [era_1868 m]
    by_cases h9 : month_num m < 9
    · rw [if_pos h9]; decide
    · rw [if_neg h9]; decide
  by_cases hy3 : y ≤ 1911
  · rw [era_meiji y m (by omega) hy3]
    exact append_ne_showa_one _ _ 'M' rfl (by decide)
  by_cases hy4 : y = 1912
  · subst hy4; rw [era_1912 m]
    by_cases h7 : month_num m ≤ 7
    · rw [if_pos h7]; decide
    · rw [if_neg h7]; decide
  by_cases hy5 : y ≤ 1925
  · rw [era_taisho y m (by omega) hy5]
    exact append_ne_showa_one _ _ 'T' rfl (by decide)
  by_cases hy6 : y = 1926
  · subst hy6; rw [era_1926 m, if_pos (month_num_le_twelve m)]; decide
  by_cases hy7 : y ≤ 1988
  · rw [era_showa y m (by omega) hy7]
    have hlb : 1927 ≤ y := by omega
    interval_cases y <;> decide
  by_cases hy8 : y = 1989
  · subst hy8; rw [era_1989 m]
    by_cases h1 : month_num m ≤ 1
    · rw [if_pos h1]; decide
    · rw [if_neg h1]; decide
  by_cases hy9 : y ≤ 2018
  · rw [era_heisei y m (by omega) hy9]
    exact append_ne_showa_one _ _ 'H' rfl (by decide)
  by_cases hy10 : y = 2019
  · subst hy10; rw [era_2019 m]
    by_cases h4 : month_num m ≤ 4
    · rw [if_pos h4]; decide
    · rw [if_neg h4]; decide
  · rw [era_reiwa y m (by omega)]
    exact append_ne_showa_one _ _ 'R' rfl (by decide)

theorem c6_showa_one_unreachable_witness :
    ("December" ∈ months ∧ get_japanese_era 1926 "December" = "Taisho 15")
    ∧ ("December" ∈ months ∧ get_japanese_era 1926 "December" ≠ "Showa 1") :=
  ⟨⟨by decide, c6_showa_one_unreachable.1 "December" (by decide)⟩,
    ⟨by decide, c6_showa_one_unreachable.2 1926 "December" (by decide)⟩⟩

/-- C2: the era lookup takes the documented exact values at all five era
boundaries (the month just before each cutover and the cutover month). -/
theorem c2_era_boundary_values :
    get_japanese_era 1868 "August" = "Pre-Meiji"
    ∧ get_japanese_era 1868 "September" = "Meiji 1"
    ∧ get_japanese_era 1912 "July" = "Meiji 45"
    ∧ get_japanese_era 1912 "August" = "Taisho 1"
    ∧ get_japanese_era 1989 "January" = "Showa 64"
    ∧ get_japanese_era 1989 "February" = "Heisei 1"
    ∧ get_japanese_era 2019 "April" = "Heisei 31"
    ∧ get_japanese_era 2019 "May" = "Reiwa 1" := by
  decide

/-- C3: for every integer start year and every canonical start month the
generator emits exactly 1212 data rows (101 years of 12 months each). -/
theorem c3_generate_length (Y : Int) (m : String) (_hm : m ∈ months) :
    (generate Y m).length = 1212 := by
  simp only [generate, total_months_toNat]
  exact genLoop_length _ _ _ _

theorem c3_generate_length_witness :
    "June" ∈ months ∧ (generate 1990 "June").length = 1212 :=
  ⟨by decide, c3_generate_length 1990 "June" (by decide)⟩

/-- C4: between consecutive rows the year field is bumped by exactly 1 when the
earlier row's month is December and is unchanged otherwise, and the first row's
year is the start year, whatever the start month is. -/
theorem c4_year_december_step (Y : Int) (m : String) (_hm : m ∈ months) :
    List.Chain' yearStep (generate Y m)
    ∧ ((generate Y m).head?).map Row.year = some Y := by
  constructor
  · simp only [generate, total_months_toNat]
    exact genLoop_chain _ _ _ _
  · simp only [generate, total_months_toNat]
    exact genLoop_head _ _ _ _ (by omega)

theorem c4_year_december_step_witness :
    "December" ∈ months
    ∧ (List.Chain' yearStep (generate 2000 "December")
        ∧ ((generate 2000 "December").head?).map Row.year = some 2000) :=
  ⟨by decide, c4_year_december_step 2000 "December" (by decide)⟩

/-- C5: the documented first, seventh and eighth rows of
`generate(1990, "June")`. -/
theorem c5_end_to_end_1990_june :
    (generate 1990 "June").get? 0
      = some ⟨1990, 0, "summer", "June", "Heisei 2", "Horse Year 7",
          "Gemini/Cancer"⟩
    ∧ (generate 1990 "June").get? 6
      = some ⟨1990, 0, "winter", "December", "Heisei 2", "Horse Year 7",
          "Sagittarius/Capricorn"⟩
    ∧ (generate 1990 "June").get? 7
      = some ⟨1991, 0, "winter", "January", "Heisei 3", "Goat Year 8",
          "Capricorn/Aquarius"⟩ := by
  decide

/-- C7 counterexample: the code's label for 1911 is not
`"Pig/Boar-cycle Year 12"` (the twelfth animal in the source list is
`'Wild Boar'`). -/
theorem c7_counterexample :
    get_chinese_zodiac 1911 "January" ≠ "Pig/Boar-cycle Year 12" := by
  decide

/-- C7 amended: `chinese_zodiac_label(1911)` is `"Wild Boar Year 12"`, the
label of the 12th position of the cycle (the month argument is ignored). -/
theorem c7_zodiac_1911 (m : String) :
    get_chinese_zodiac 1911 m = "Wild Boar Year 12" := rfl

/-- C8: the Chinese zodiac label is periodic with period 12 in the year, and
both 1900 and 1912 are labelled `"Rat Year 1"`. -/
theorem c8_zodiac_period :
    (∀ (y : Int) (m : String),
      get_chinese_zodiac (y + 12) m = get_chinese_zodiac y m)
    ∧ get_chinese_zodiac 1900 "January" = "Rat Year 1"
    ∧ get_chinese_zodiac 1912 "January" = "Rat Year 1" := by
  refine ⟨?_, by decide, by decide⟩
  intro y m
  have h : (y + 12 - 1900) % 12 = (y - 1900) % 12 := by omega
  simp only [get_chinese_zodiac, h]

/-- C9: the sanitizer (the regex substitution followed by `.lower()`) returns
exactly what the spec describes: every character outside `[A-Za-z0-9_-]`
replaced by `'_'`, then the result lower-cased. -/
theorem c9_sanitizer_spec (s : String) : sanitized_name s = sanitize_spec s := by
  obtain ⟨l⟩ := s
  simp only [sanitized_name, sanitize_spec, String.toLower, String.map_eq,
    subNonAllowed_eq_map]

/-- C10: the Western zodiac lookup is total: every string that is not one of
the twelve canonical month names gets the sentinel `"Unknown"`. -/
theorem c10_western_zodiac_default (s : String) (hs : s ∉ months) :
    get_western_zodiac s = "Unknown" := by
  unfold get_western_zodiac
  split
  all_goals first
    | rfl
    | exact absurd (by decide) hs

theorem c10_western_zodiac_default_witness :
    "Smarch" ∉ months ∧ get_western_zodiac "Smarch" = "Unknown" :=
  ⟨by decide, c10_western_zodiac_default "Smarch" (by decide)⟩

/-- Bound transfer for the year column: the start year enters the loop state
only additively (`genLoop_year_shift`), so checking the year offsets of the run
started at year 0 bounds the years of every run. -/
lemma year_bounds_of_all (rotated : List String)
    (hall : (genLoop rotated 0 0 1212).all
      (fun r => decide (0 ≤ r.year ∧ r.year ≤ 101)) = true)
    (Y : Int) (r : Row) (hr : r ∈ genLoop rotated Y 0 1212) :
    Y ≤ r.year ∧ r.year ≤ Y + 101 := by
  have hy : r.year ∈ (genLoop rotated Y 0 1212).map Row.year :=
    List.mem_map_of_mem Row.year hr
  have hshift := genLoop_year_shift rotated 1212 0 Y 0
  rw [zero_add] at hshift
  rw [hshift, List.mem_map] at hy
  obtain ⟨z, hz, hzy⟩ := hy
  rw [List.mem_map] at hz
  obtain ⟨r₀, hr₀, hz0⟩ := hz
  have hb := of_decide_eq_true (List.all_eq_true.mp hall r₀ hr₀)
  constructor <;> omega

set_option maxRecDepth 100000 in
/-- C1 counterexample: in `generate(1990, "June")` some row (the last one,
June 2091) has a year exceeding `birth_year + 100`, so the claimed invariant
`birth_year ≤ year ≤ birth_year + 100` fails as stated. -/
theorem c1_counterexample :
    ¬ (∀ (Y : Int), ∀ m ∈ months, ∀ r ∈ generate Y m,
        Y ≤ r.year ∧ r.year ≤ Y + 100) := by
  intro h
  have hany : (generate 1990 "June").any
      (fun r => decide (1990 + 100 < r.year)) = true := by decide
  obtain ⟨r, hr, hgt⟩ := List.any_eq_true.mp hany
  have h2 := (h 1990 "June" (by decide) r hr).2
  have h3 := of_decide_eq_true hgt
  omega

set_option maxRecDepth 100000 in
/-- C1 amended: every row of `generate(Y, start_month)` has
`Y ≤ year ≤ Y + 101`.  (For any start month other than January the rows after
the 101st December reach year `Y + 101`, so `Y + 100` is not an upper bound;
`Y + 101` is.) -/
theorem c1_year_bounds (Y : Int) (m : String) (hm : m ∈ months) :
    ∀ r ∈ generate Y m, Y ≤ r.year ∧ r.year ≤ Y + 101 := by
  intro r hr
  simp only [generate, total_months_toNat] at hr
  simp only [months, List.mem_cons, List.not_mem_nil, or_false] at hm
  rcases hm with rfl | rfl | rfl | rfl | rfl | rfl | rfl | rfl | rfl | rfl | rfl | rfl
  all_goals exact year_bounds_of_all _ (by decide) Y r hr

theorem c1_year_bounds_witness :
    "June" ∈ months
    ∧ ∀ r ∈ generate 1990 "June", 1990 ≤ r.year ∧ r.year ≤ 1990 + 101 :=
  ⟨by decide, c1_year_bounds 1990 "June" (by decide)⟩
